import Mathlib

/-!
Formal model of the git action orchestrator implemented in
`src/src-tauri/src/lib.rs`.

External effects (process execution, filesystem queries, executable
resolution) are abstracted into an `Env` record of oracles; every control
decision, command line, trace construction and outcome aggregation of the
Rust code is reproduced faithfully over that record.
-/

set_option maxRecDepth 8192

/-- The quote character (ASCII 39). -/
def squote : Char := Char.ofNat 39

/-- The backslash character (ASCII 92). -/
def bslash : Char := Char.ofNat 92

/-- Whitespace-stripping on both ends, modelling the Rust `str::trim`
calls. Defined over the character list so that it evaluates by kernel
reduction. -/
def trimChars (l : List Char) : List Char :=
  ((l.dropWhile Char.isWhitespace).reverse.dropWhile Char.isWhitespace).reverse

/-- String form of `trimChars`. -/
def strTrim (s : String) : String := String.mk (trimChars s.data)

/-- Mirror of the Rust struct `StepResult`: one executed command. -/
structure StepResult where
  cmd : String
  cwd : Option String
  ok : Bool
  exitCode : Int
  stdout : String
  stderr : String
deriving DecidableEq, Repr

/-- Mirror of the Rust struct `ActionError`. -/
structure ActionError where
  code : String
  severity : String
  message : String
  detail : Option String
deriving DecidableEq, Repr

/-- Mirror of the Rust struct `ActionOutcome`. -/
structure ActionOutcome where
  ok : Bool
  mode : String
  action : String
  envKey : String
  steps : List StepResult
  error : Option ActionError
deriving DecidableEq, Repr

/-- Mirror of the Rust struct `SshConfig`. -/
structure SshConfig where
  host : String
  user : String
  port : Option Nat
  keyPath : Option String
deriving DecidableEq, Repr

/-- Mirror of the Rust struct `RunActionRequest`. -/
structure RunActionRequest where
  mode : String
  envKey : String
  action : String
  localPath : String
  remotePath : String
  branch : String
  gitPath : String
  sshPath : String
  ssh : SshConfig
  mergeFromBranch : Option String
  commitMessage : Option String
deriving DecidableEq, Repr

/-- Result of attempting to launch one external process: either the launch
itself failed with an OS error message, or the process ran and produced a
status (success flag plus optional numeric exit code) and captured output. -/
inductive ProcOut where
  | err (msg : String)
  | out (success : Bool) (code : Option Int) (stdout stderr : String)
deriving DecidableEq, Repr

/-- Oracle record abstracting the machine the orchestrator runs against:
executable resolution (`git_exe` / `ssh_exe`), filesystem queries used by
validation, directory creation, and external process execution. -/
structure Env where
  resolveGit : Option String → Option String
  resolveSsh : Option String → Option String
  pathExists : String → Bool
  pathIsDir : String → Bool
  hasDotGit : String → Bool
  createDirErr : String → Option String
  exec : String → List String → Option String → ProcOut

/-- Mirror of the Rust fn `run_capture`: builds a `StepResult` from one
process execution; a launch failure yields `ok = false`, exit code `-1` and
the OS error in `stderr`; an unobtainable status code is also `-1`. -/
def run_capture (env : Env) (exe : String) (args : List String)
    (cwd : Option String) : StepResult :=
  let cmdStr := exe ++ " " ++ String.intercalate " " args
  match env.exec exe args cwd with
  | .out success code stdout stderr =>
      { cmd := cmdStr, cwd := cwd, ok := success,
        exitCode := code.getD (-1), stdout := stdout, stderr := stderr }
  | .err e =>
      { cmd := cmdStr, cwd := cwd, ok := false,
        exitCode := -1, stdout := "", stderr := e }

/-- Body of the replacement performed by `shell_escape_posix_single`: each
quote character becomes the 4-character sequence quote, backslash, quote,
quote; every other character is kept. -/
def escBody : List Char → List Char
  | [] => []
  | c :: cs =>
      if c = squote then squote :: bslash :: squote :: squote :: escBody cs
      else c :: escBody cs

/-- Mirror of the Rust fn `shell_escape_posix_single`: wrap in single quotes
and replace each embedded single quote by the 4-character escape sequence. -/
def shell_escape_posix_single (s : String) : String :=
  String.mk (squote :: (escBody s.data ++ [squote]))

/-- Characters that, unquoted, would break the word or invoke shell
interpretation under POSIX rules: whitespace, double quote, backtick,
dollar, and the control operators. -/
def isWordBreak (c : Char) : Bool :=
  c == ' ' || c == Char.ofNat 9 || c == Char.ofNat 10 ||
  c == '|' || c == '&' || c == ';' || c == '<' || c == '>' ||
  c == '(' || c == ')' || c == Char.ofNat 34 || c == Char.ofNat 96 ||
  c == Char.ofNat 36 || c == '*' || c == '?'

/-- POSIX interpretation of one shell word. The flag says whether the scan
is currently inside single quotes. Outside quotes a backslash escapes the
next character and a word-break character means the input is not one single
plain word (`none`); inside single quotes every character except the
closing quote is literal. An unterminated quote yields `none`. -/
def posixWordAux : List Char → Bool → Option (List Char)
  | [], false => some []
  | [], true => none
  | c :: cs, true =>
      if c = squote then posixWordAux cs false
      else (posixWordAux cs true).map (fun r => c :: r)
  | c :: cs, false =>
      if c = squote then posixWordAux cs true
      else if c = bslash then
        match cs with
        | [] => none
        | d :: cs2 => (posixWordAux cs2 false).map (fun r => d :: r)
      else if isWordBreak c then none
      else (posixWordAux cs false).map (fun r => c :: r)

/-- Interpret a string under POSIX quoting rules as exactly one argument. -/
def posixSingleWord (s : String) : Option String :=
  (posixWordAux s.data false).map String.mk

example : shell_escape_posix_single "ab" = String.mk [squote, 'a', 'b', squote] := by decide
example : posixSingleWord (shell_escape_posix_single "a b") = some "a b" := by decide

/-! ## The action orchestrator `run_action` -/

/-- The `fail` closure inside the Rust fn `run_action`: an early
short-circuit outcome with `ok = false` and a specific error. -/
def failOutcome (req : RunActionRequest) (code severity message : String)
    (detail : Option String) (steps : List StepResult) : ActionOutcome :=
  { ok := false, mode := req.mode, action := req.action, envKey := req.envKey,
    steps := steps,
    error := some { code := code, severity := severity, message := message, detail := detail } }

/-- The terminal outcome of a run that executed its full step sequence:
aggregate `ok` is the AND of every captured step, and on failure a generic
mode-specific error is attached. -/
def doneOutcome (req : RunActionRequest) (genericCode genericMsg : String)
    (steps : List StepResult) : ActionOutcome :=
  let ok := steps.all (fun s => s.ok)
  { ok := ok, mode := req.mode, action := req.action, envKey := req.envKey,
    steps := steps,
    error := if ok then none
      else some { code := genericCode, severity := "ERROR", message := genericMsg, detail := none } }

/-- The stash-leniency rule applied to the auto-stash step in `run_action`:
if stdout reports that a working directory snapshot was saved, the step is
marked successful even when the process itself failed. -/
def savedIndicator : String := "Saved working directory"

/-- Substring test matching the Rust `str::contains` call on the stash output. -/
def containsSaved (out : String) : Bool :=
  decide (savedIndicator.data <:+: out.data)

/-- Post-processing of the stash step (`stash_step.ok = true` when the
saved-snapshot indicator appears in stdout, otherwise unchanged). -/
def adjustStash (s : StepResult) : StepResult :=
  if containsSaved s.stdout then { s with ok := true } else s

/-! Named step builders for the local mode, matching the exact command
lines built in `run_action` (`git -C <path> ...`). -/

def brStepL (env : Env) (g lp : String) : StepResult :=
  run_capture env g ["-C", lp, "symbolic-ref", "--short", "HEAD"] none

def headStepL (env : Env) (g lp : String) : StepResult :=
  run_capture env g ["-C", lp, "rev-parse", "--verify", "HEAD"] none

def stStepL (env : Env) (g lp : String) : StepResult :=
  run_capture env g ["-C", lp, "status", "--porcelain", "--ignore-submodules"] none

def stashStepL (env : Env) (g lp : String) : StepResult :=
  run_capture env g ["-C", lp, "stash", "--include-untracked"] none

def addStepL (env : Env) (g lp : String) : StepResult :=
  run_capture env g ["-C", lp, "add", "-A"] none

def commitStepL (env : Env) (g lp msg : String) : StepResult :=
  run_capture env g ["-C", lp, "commit", "-m", msg] none

def emptyCommitStepL (env : Env) (g lp msg : String) : StepResult :=
  run_capture env g ["-C", lp, "commit", "--allow-empty", "-m", msg] none

def fetchStepL (env : Env) (g lp : String) : StepResult :=
  run_capture env g ["-C", lp, "fetch", "origin"] none

def checkoutStepL (env : Env) (g lp br : String) : StepResult :=
  run_capture env g ["-C", lp, "checkout", br] none

def pullStepL (env : Env) (g lp br : String) : StepResult :=
  run_capture env g ["-C", lp, "pull", "--ff-only", "origin", br] none

def pushStepL (env : Env) (g lp br : String) : StepResult :=
  run_capture env g ["-C", lp, "push", "origin", br] none

def mergeFetchStepL (env : Env) (g lp fromBr : String) : StepResult :=
  run_capture env g ["-C", lp, "fetch", "origin", fromBr] none

def mergeStepL (env : Env) (g lp fromBr : String) : StepResult :=
  run_capture env g ["-C", lp, "merge", "--no-ff", fromBr] none

/-- Local-mode tail after the empty-commit stage: the action-specific
steps (`pull` / `push` / `merge`) and the final aggregation. The merge
branch validates `mergeFromBranch` here, after fetch and checkout already
ran, exactly as the Rust code does. -/
def localFinish (env : Env) (req : RunActionRequest) (g lp : String)
    (steps : List StepResult) : ActionOutcome :=
  let steps := if req.action = "pull"
    then steps ++ [pullStepL env g lp req.branch] else steps
  let steps := if req.action = "push"
    then steps ++ [pushStepL env g lp req.branch] else steps
  if req.action = "merge" then
    let fromBr := req.mergeFromBranch.getD ""
    if (strTrim fromBr).isEmpty = true then
      failOutcome req "CFG-0003" "ERROR" "mergeFromBranch is required for merge" none steps
    else
      doneOutcome req "GIT-0002" "git command failed"
        (steps ++ [mergeFetchStepL env g lp fromBr, mergeStepL env g lp fromBr,
                   pushStepL env g lp req.branch])
  else
    doneOutcome req "GIT-0002" "git command failed" steps

/-- Local-mode stage from the fetch step on: fetch, checkout, then (local
mode only) the first-push empty commit, then the action tail. -/
def localTail (env : Env) (req : RunActionRequest) (g lp : String)
    (hasCommits : Bool) (steps : List StepResult) : ActionOutcome :=
  let steps := steps ++ [fetchStepL env g lp, checkoutStepL env g lp req.branch]
  if req.action = "push" ∧ hasCommits = false then
    let msg := strTrim (req.commitMessage.getD "")
    if msg.isEmpty = true then
      failOutcome req "GIT-0107" "ERROR"
        "push requires commitMessage when repository has no commits" none steps
    else
      let ec := emptyCommitStepL env g lp msg
      if ec.ok = false then
        failOutcome req "GIT-0108" "ERROR" "git commit --allow-empty failed"
          (some ec.stderr) (steps ++ [ec])
      else
        localFinish env req g lp (steps ++ [ec])
  else
    localFinish env req g lp steps

/-- Local-mode stage after the cleanliness probe: the auto-stash for a
dirty pull or merge, then the dirty-push staging block with its four
short-circuit exits, then the rest of the sequence. -/
def localPost (env : Env) (req : RunActionRequest) (g lp currentBranch : String)
    (hasCommits clean : Bool) (steps : List StepResult) : ActionOutcome :=
  let steps := if req.action ≠ "push" ∧ clean = false
    then steps ++ [adjustStash (stashStepL env g lp)] else steps
  if req.action = "push" ∧ clean = false then
    if currentBranch ≠ req.branch then
      failOutcome req "GIT-0103" "ERROR" "working tree is dirty on a different branch"
        (some ("current_branch=" ++ currentBranch ++ " target_branch=" ++ req.branch)) steps
    else
      let msg := strTrim (req.commitMessage.getD "")
      if msg.isEmpty = true then
        failOutcome req "GIT-0104" "ERROR"
          "push requires commitMessage when working tree is dirty" none steps
      else
        let addStep := addStepL env g lp
        if addStep.ok = false then
          failOutcome req "GIT-0105" "ERROR" "git add failed"
            (some addStep.stderr) (steps ++ [addStep])
        else
          let commitStep := commitStepL env g lp msg
          if commitStep.ok = false then
            failOutcome req "GIT-0106" "ERROR" "git commit failed"
              (some commitStep.stderr) (steps ++ [addStep, commitStep])
          else
            localTail env req g lp true (steps ++ [addStep, commitStep])
  else
    localTail env req g lp hasCommits steps

/-- Local-mode branch of `run_action`: executable and path validation,
branch detection (fatal on failure), HEAD existence probe (non-fatal,
appended to the trace before the branch step), cleanliness probe (fatal on
failure), then `localPost`. -/
def runLocal (env : Env) (req : RunActionRequest) : ActionOutcome :=
  match env.resolveGit
      (if (strTrim req.gitPath).isEmpty = true then none else some req.gitPath) with
  | none => failOutcome req "GIT-0001" "FATAL" "git not found" none []
  | some g =>
    let lp := strTrim req.localPath
    if lp.isEmpty = true then
      failOutcome req "FS-0100" "ERROR" "localPath is required" none []
    else if env.pathExists lp = false then
      failOutcome req "FS-0101" "ERROR" "localPath does not exist" (some lp) []
    else if env.pathIsDir lp = false then
      failOutcome req "FS-0101" "ERROR" "localPath is not a directory" (some lp) []
    else if env.hasDotGit lp = false then
      failOutcome req "FS-0102" "ERROR" "localPath is not a git repository" (some lp) []
    else
      let brStep := brStepL env g lp
      let currentBranch := strTrim brStep.stdout
      if brStep.ok = false then
        failOutcome req "GIT-0100" "ERROR" "failed to get current branch"
          (some brStep.stderr) [brStep]
      else
        let headStep := headStepL env g lp
        let hasCommits := headStep.ok
        let stStep := stStepL env g lp
        if stStep.ok = false then
          failOutcome req "GIT-0101" "ERROR" "git status failed"
            (some ("git status failed: " ++ stStep.stderr)) [headStep, brStep, stStep]
        else
          localPost env req g lp currentBranch hasCommits ((strTrim stStep.stdout).isEmpty)
            [headStep, brStep, stStep]

/-! ## The ssh mode -/

/-- Mirror of the Rust fn `ssh_run` argument list: forced non-interactive
options, the configured port (default 22), optional identity file, the
`user@host` target, and the flattened remote command. -/
def ssh_args (cfg : SshConfig) (remoteCmd : String) : List String :=
  ["-p", toString (cfg.port.getD 22), "-o", "BatchMode=yes",
   "-o", "ConnectTimeout=5", "-o", "ConnectionAttempts=1"]
  ++ (match cfg.keyPath with
      | some k => if (strTrim k).isEmpty = true then [] else ["-i", k]
      | none => [])
  ++ [cfg.user ++ "@" ++ cfg.host, "--", remoteCmd]

/-- Mirror of the Rust fn `ssh_run`. -/
def ssh_run (env : Env) (ssh : String) (cfg : SshConfig) (remoteCmd : String) : StepResult :=
  run_capture env ssh (ssh_args cfg remoteCmd) none

/-- Remote commands are prefixed with a `cd` into the shell-quoted working
directory, because the transport has no separate working-directory notion. -/
def sshCmd (rp cmd : String) : String :=
  "cd " ++ shell_escape_posix_single rp ++ " && " ++ cmd

/-! Named step builders for the ssh mode, matching the exact remote command
strings built in `run_action`. -/

def brStepS (env : Env) (ssh : String) (cfg : SshConfig) (rp : String) : StepResult :=
  ssh_run env ssh cfg (sshCmd rp
    "(git symbolic-ref --short HEAD 2>/dev/null || git rev-parse --abbrev-ref HEAD)")

def headStepS (env : Env) (ssh : String) (cfg : SshConfig) (rp : String) : StepResult :=
  ssh_run env ssh cfg (sshCmd rp "git rev-parse --verify HEAD")

def stStepS (env : Env) (ssh : String) (cfg : SshConfig) (rp : String) : StepResult :=
  ssh_run env ssh cfg (sshCmd rp "git status --porcelain --ignore-submodules")

def stashStepS (env : Env) (ssh : String) (cfg : SshConfig) (rp : String) : StepResult :=
  ssh_run env ssh cfg (sshCmd rp "git stash --include-untracked")

def addStepS (env : Env) (ssh : String) (cfg : SshConfig) (rp : String) : StepResult :=
  ssh_run env ssh cfg (sshCmd rp "git add -A")

def commitStepS (env : Env) (ssh : String) (cfg : SshConfig) (rp msg : String) : StepResult :=
  ssh_run env ssh cfg (sshCmd rp ("git commit -m " ++ shell_escape_posix_single msg))

def emptyCommitStepS (env : Env) (ssh : String) (cfg : SshConfig) (rp msg : String) : StepResult :=
  ssh_run env ssh cfg (sshCmd rp ("git commit --allow-empty -m " ++ shell_escape_posix_single msg))

def fetchStepS (env : Env) (ssh : String) (cfg : SshConfig) (rp : String) : StepResult :=
  ssh_run env ssh cfg (sshCmd rp "git fetch origin")

def checkoutStepS (env : Env) (ssh : String) (cfg : SshConfig) (rp br : String) : StepResult :=
  ssh_run env ssh cfg (sshCmd rp ("git checkout " ++ shell_escape_posix_single br))

def pullStepS (env : Env) (ssh : String) (cfg : SshConfig) (rp br : String) : StepResult :=
  ssh_run env ssh cfg (sshCmd rp ("git pull --ff-only origin " ++ shell_escape_posix_single br))

def pushStepS (env : Env) (ssh : String) (cfg : SshConfig) (rp br : String) : StepResult :=
  ssh_run env ssh cfg (sshCmd rp ("git push origin " ++ shell_escape_posix_single br))

def mergeFetchStepS (env : Env) (ssh : String) (cfg : SshConfig) (rp fromBr : String) : StepResult :=
  ssh_run env ssh cfg (sshCmd rp ("git fetch origin " ++ shell_escape_posix_single fromBr))

def mergeStepS (env : Env) (ssh : String) (cfg : SshConfig) (rp fromBr : String) : StepResult :=
  ssh_run env ssh cfg (sshCmd rp
    ("git merge --no-ff " ++ shell_escape_posix_single ("origin/" ++ fromBr)))

/-- Ssh-mode stage from the fetch step on: fetch, checkout, then the
action-specific tail. The ssh merge trims the source branch and merges its
remote-tracking form `origin/<source>`. -/
def sshMain (env : Env) (req : RunActionRequest) (ssh : String) (cfg : SshConfig)
    (rp : String) (steps : List StepResult) : ActionOutcome :=
  let steps := steps ++ [fetchStepS env ssh cfg rp, checkoutStepS env ssh cfg rp req.branch]
  let steps := if req.action = "pull"
    then steps ++ [pullStepS env ssh cfg rp req.branch] else steps
  let steps := if req.action = "push"
    then steps ++ [pushStepS env ssh cfg rp req.branch] else steps
  if req.action = "merge" then
    let fromBr := strTrim (req.mergeFromBranch.getD "")
    if fromBr.isEmpty = true then
      failOutcome req "CFG-0201" "ERROR" "mergeFromBranch is required for merge" none steps
    else
      doneOutcome req "SSH-0200" "remote command failed"
        (steps ++ [mergeFetchStepS env ssh cfg rp fromBr, mergeStepS env ssh cfg rp fromBr,
                   pushStepS env ssh cfg rp req.branch])
  else
    doneOutcome req "SSH-0200" "remote command failed" steps

/-- Ssh-mode first-push empty commit; in this mode it runs before the
fetch step, unlike the local mode. -/
def sshTail (env : Env) (req : RunActionRequest) (ssh : String) (cfg : SshConfig)
    (rp : String) (hasCommits : Bool) (steps : List StepResult) : ActionOutcome :=
  if req.action = "push" ∧ hasCommits = false then
    let msg := strTrim (req.commitMessage.getD "")
    if msg.isEmpty = true then
      failOutcome req "GIT-0107" "ERROR"
        "push requires commitMessage when repository has no commits" none steps
    else
      let ec := emptyCommitStepS env ssh cfg rp msg
      if ec.ok = false then
        failOutcome req "SSH-0201" "ERROR" "git commit --allow-empty failed on remote"
          (some ec.stderr) (steps ++ [ec])
      else
        sshMain env req ssh cfg rp (steps ++ [ec])
  else
    sshMain env req ssh cfg rp steps

/-- Ssh-mode stage after the cleanliness probe: auto-stash for a dirty
pull or merge, then the dirty-push staging block, then the rest. -/
def sshPost (env : Env) (req : RunActionRequest) (ssh : String) (cfg : SshConfig)
    (rp currentBranch : String) (hasCommits clean : Bool)
    (steps : List StepResult) : ActionOutcome :=
  let steps := if req.action ≠ "push" ∧ clean = false
    then steps ++ [adjustStash (stashStepS env ssh cfg rp)] else steps
  if req.action = "push" ∧ clean = false then
    if currentBranch ≠ req.branch then
      failOutcome req "GIT-0104" "ERROR"
        "working tree is dirty on a non-target branch (checkout target branch first)"
        (some ("current=" ++ currentBranch ++ ", target=" ++ req.branch)) steps
    else
      let msg := strTrim (req.commitMessage.getD "")
      if msg.isEmpty = true then
        failOutcome req "GIT-0103" "ERROR"
          "commitMessage is required for push when there are uncommitted changes" none steps
      else
        let addStep := addStepS env ssh cfg rp
        if addStep.ok = false then
          failOutcome req "SSH-0201" "ERROR" "git add failed on remote"
            (some addStep.stderr) (steps ++ [addStep])
        else
          let commitStep := commitStepS env ssh cfg rp msg
          if commitStep.ok = false then
            failOutcome req "SSH-0201" "ERROR" "git commit failed on remote"
              (some commitStep.stderr) (steps ++ [addStep, commitStep])
          else
            sshTail env req ssh cfg rp true (steps ++ [addStep, commitStep])
  else
    sshTail env req ssh cfg rp hasCommits steps

/-- Ssh-mode branch of `run_action`: executable and configuration
validation, branch detection (with the abbrev-ref fallback folded into the
remote command string), HEAD existence probe, cleanliness probe, then
`sshPost`. In this mode the branch step is appended to the trace first. -/
def runSsh (env : Env) (req : RunActionRequest) : ActionOutcome :=
  match env.resolveSsh
      (if (strTrim req.sshPath).isEmpty = true then none else some req.sshPath) with
  | none => failOutcome req "SSH-0001" "FATAL" "ssh not found" none []
  | some ssh =>
    let cfg := req.ssh
    if (strTrim cfg.host).isEmpty = true ∨ (strTrim cfg.user).isEmpty = true then
      failOutcome req "CFG-0302" "ERROR" "ssh host/user is required" none []
    else
      let rp := strTrim req.remotePath
      if rp.isEmpty = true then
        failOutcome req "CFG-0303" "ERROR" "remotePath is required" none []
      else
        let brStep := brStepS env ssh cfg rp
        let currentBranch := strTrim brStep.stdout
        if brStep.ok = false then
          failOutcome req "SSH-0201" "ERROR" "failed to get remote branch"
            (some brStep.stderr) [brStep]
        else
          let headStep := headStepS env ssh cfg rp
          let hasCommits := headStep.ok
          let stStep := stStepS env ssh cfg rp
          if stStep.ok = false then
            failOutcome req "SSH-0201" "ERROR" "git status failed on remote"
              (some stStep.stderr) [brStep, headStep, stStep]
          else
            sshPost env req ssh cfg rp currentBranch hasCommits
              ((strTrim stStep.stdout).isEmpty) [brStep, headStep, stStep]

/-- Mirror of the Rust fn `run_action`: validate the action name, then
dispatch on the mode. -/
def run_action (env : Env) (req : RunActionRequest) : ActionOutcome :=
  if req.action ≠ "pull" ∧ req.action ≠ "push" ∧ req.action ≠ "merge" then
    failOutcome req "CFG-0001" "ERROR" "unknown action" (some req.action) []
  else if req.mode = "local" then
    runLocal env req
  else if req.mode = "ssh" then
    runSsh env req
  else
    failOutcome req "CFG-0002" "ERROR" "unknown mode (expected local|ssh)" (some req.mode) []

/-! ## The repository initializer `init_local_repo` -/

/-- Fixed outcome fields of the initializer (`mode = "local"`,
`action = "init"`, `env_key = "init"`). -/
def initOutcome (ok : Bool) (steps : List StepResult) (error : Option ActionError) : ActionOutcome :=
  { ok := ok, mode := "local", action := "init", envKey := "init",
    steps := steps, error := error }

/-- The synthetic trace entry recorded when the repository is already
initialized. -/
def skipStep (lp : String) : StepResult :=
  { cmd := "[skip] already initialized: " ++ lp, cwd := some lp,
    ok := true, exitCode := 0, stdout := "", stderr := "" }

/-- The successful synthetic mkdir trace entry. -/
def mkdirStep (lp : String) : StepResult :=
  { cmd := "mkdir -p " ++ lp, cwd := none,
    ok := true, exitCode := 0, stdout := "", stderr := "" }

/-- Mirror of the Rust fn `step_error`. -/
def step_error (cmd stderr : String) : StepResult :=
  { cmd := cmd, cwd := none, ok := false, exitCode := -1, stdout := "", stderr := stderr }

/-- Initializer stages following the directory-existence handling: the
already-initialized skip, or init / default-branch / origin configuration
with aggregate success computed at the end. -/
def initAfterDir (env : Env) (g lp : String) (repoUrl defaultBranch : Option String)
    (steps : List StepResult) : ActionOutcome :=
  if env.hasDotGit lp = true then
    initOutcome true (steps ++ [skipStep lp])
      (some { code := "GIT-0403", severity := "INFO",
              message := ".git already exists (already initialized)", detail := none })
  else
    let steps := steps ++ [run_capture env g ["init"] (some lp)]
    let branch := strTrim (defaultBranch.getD "main")
    let steps := if branch.isEmpty = true then steps
      else steps ++ [run_capture env g ["symbolic-ref", "HEAD", "refs/heads/" ++ branch] (some lp)]
    let steps := match repoUrl with
      | none => steps
      | some url =>
        let url := strTrim url
        if url.isEmpty = true then steps
        else
          let rem := run_capture env g ["remote"] (some lp)
          let hasOrigin := rem.ok &&
            (((rem.stdout.data.splitOn (Char.ofNat 10)).map String.mk).any (fun l => strTrim l == "origin"))
          let steps := steps ++ [rem]
          if hasOrigin then
            steps ++ [run_capture env g ["remote", "set-url", "origin", url] (some lp)]
          else
            steps ++ [run_capture env g ["remote", "add", "origin", url] (some lp)]
    let ok := steps.all (fun s => s.ok)
    initOutcome ok steps
      (if ok then none
       else some { code := "GIT-0499", severity := "ERROR",
                   message := "init failed (see steps)", detail := none })

/-- Mirror of the Rust fn `init_local_repo`. -/
def init_local_repo (env : Env) (gitPath : Option String) (localPath : String)
    (repoUrl defaultBranch : Option String) : ActionOutcome :=
  match env.resolveGit gitPath with
  | none =>
    initOutcome false []
      (some { code := "GIT-0001", severity := "FATAL",
              message := "git not found. Run preflight and set gitPath if needed.",
              detail := none })
  | some g =>
    let lp := strTrim localPath
    if lp.isEmpty = true then
      initOutcome false []
        (some { code := "GIT-0401", severity := "ERROR",
                message := "localPath is required", detail := none })
    else if env.pathExists lp = false then
      match env.createDirErr lp with
      | some e =>
        initOutcome false [step_error ("mkdir -p " ++ lp) e]
          (some { code := "GIT-0402", severity := "ERROR",
                  message := "failed to create directory", detail := none })
      | none => initAfterDir env g lp repoUrl defaultBranch [mkdirStep lp]
    else
      initAfterDir env g lp repoUrl defaultBranch []

/-! ## Concrete environments for witnesses and counterexamples -/

/-- A process result reporting plain success with empty output. -/
def okOut : ProcOut := .out true (some 0) "" ""

/-- A machine on which every probe passes, every path exists and is an
initialized repository, and every command succeeds with empty output (so
the working tree reads as clean and the current branch reads as blank). -/
def envOk : Env :=
  { resolveGit := fun _ => some "git", resolveSsh := fun _ => some "ssh",
    pathExists := fun _ => true, pathIsDir := fun _ => true,
    hasDotGit := fun _ => true, createDirErr := fun _ => none,
    exec := fun _ _ _ => okOut }

/-- A baseline well-formed request used by concrete instantiations. -/
def reqBase : RunActionRequest :=
  { mode := "local", envKey := "e1", action := "pull",
    localPath := "/repo", remotePath := "/srv/repo", branch := "main",
    gitPath := "", sshPath := "",
    ssh := { host := "h", user := "u", port := none, keyPath := none },
    mergeFromBranch := none, commitMessage := none }

example : (run_action envOk reqBase).ok = true := by decide
example : (run_action envOk reqBase).steps.length = 6 := by decide

/-! ## Aggregation invariant (C1 infrastructure) -/

/-- The generic local-mode failure error attached by the final aggregation. -/
def gitGenericError : ActionError :=
  { code := "GIT-0002", severity := "ERROR", message := "git command failed", detail := none }

/-- The generic ssh-mode failure error attached by the final aggregation. -/
def sshGenericError : ActionError :=
  { code := "SSH-0200", severity := "ERROR", message := "remote command failed", detail := none }

/-- An outcome of `run_action` that executed its full step sequence: its
error field is either absent or one of the two generic end-of-run errors;
no precondition short-circuit produces these. -/
def completedRun (o : ActionOutcome) : Prop :=
  o.error = none ∨ o.error = some gitGenericError ∨ o.error = some sshGenericError

instance (o : ActionOutcome) : Decidable (completedRun o) := by
  unfold completedRun; infer_instance

/-- The C1 property of one outcome: on a completed run the aggregate flag
is the AND of the trace, and a true aggregate flag always means an
all-successful trace. -/
def soundAgg (o : ActionOutcome) : Prop :=
  (completedRun o → o.ok = o.steps.all (fun s => s.ok)) ∧
  (o.ok = true → o.steps.all (fun s => s.ok) = true) ∧
  (o.ok = true → o.error = none)

lemma soundAgg_fail (req : RunActionRequest) (code severity message : String)
    (detail : Option String) (steps : List StepResult)
    (h1 : code ≠ "GIT-0002") (h2 : code ≠ "SSH-0200") :
    soundAgg (failOutcome req code severity message detail steps) := by
  refine ⟨?_, ?_, ?_⟩
  · intro hc
    exfalso
    rcases hc with h | h | h
    · simp [failOutcome] at h
    · simp [failOutcome, gitGenericError] at h
      exact h1 h.1
    · simp [failOutcome, sshGenericError] at h
      exact h2 h.1
  · intro h
    simp [failOutcome] at h
  · intro h
    simp [failOutcome] at h

lemma soundAgg_done (req : RunActionRequest) (gc gm : String) (steps : List StepResult) :
    soundAgg (doneOutcome req gc gm steps) := by
  refine ⟨?_, ?_, ?_⟩
  · intro _
    rfl
  · intro h
    exact h
  · intro h
    simp only [doneOutcome] at h ⊢
    simp [h]

lemma soundAgg_localFinish (env : Env) (req : RunActionRequest) (g lp : String)
    (steps : List StepResult) : soundAgg (localFinish env req g lp steps) := by
  simp only [localFinish]
  split
  · split
    · exact soundAgg_fail _ _ _ _ _ _ (by decide) (by decide)
    · exact soundAgg_done _ _ _ _
  · exact soundAgg_done _ _ _ _

lemma soundAgg_localTail (env : Env) (req : RunActionRequest) (g lp : String)
    (hasCommits : Bool) (steps : List StepResult) :
    soundAgg (localTail env req g lp hasCommits steps) := by
  simp only [localTail]
  split
  · split
    · exact soundAgg_fail _ _ _ _ _ _ (by decide) (by decide)
    · split
      · exact soundAgg_fail _ _ _ _ _ _ (by decide) (by decide)
      · exact soundAgg_localFinish _ _ _ _ _
  · exact soundAgg_localFinish _ _ _ _ _

lemma soundAgg_localPost (env : Env) (req : RunActionRequest) (g lp cb : String)
    (hasCommits clean : Bool) (steps : List StepResult) :
    soundAgg (localPost env req g lp cb hasCommits clean steps) := by
  simp only [localPost]
  split
  · split
    · exact soundAgg_fail _ _ _ _ _ _ (by decide) (by decide)
    · split
      · exact soundAgg_fail _ _ _ _ _ _ (by decide) (by decide)
      · split
        · exact soundAgg_fail _ _ _ _ _ _ (by decide) (by decide)
        · split
          · exact soundAgg_fail _ _ _ _ _ _ (by decide) (by decide)
          · exact soundAgg_localTail _ _ _ _ _ _
  · exact soundAgg_localTail _ _ _ _ _ _

lemma soundAgg_runLocal (env : Env) (req : RunActionRequest) :
    soundAgg (runLocal env req) := by
  simp only [runLocal]
  split
  · exact soundAgg_fail _ _ _ _ _ _ (by decide) (by decide)
  · split
    · exact soundAgg_fail _ _ _ _ _ _ (by decide) (by decide)
    · split
      · exact soundAgg_fail _ _ _ _ _ _ (by decide) (by decide)
      · split
        · exact soundAgg_fail _ _ _ _ _ _ (by decide) (by decide)
        · split
          · exact soundAgg_fail _ _ _ _ _ _ (by decide) (by decide)
          · split
            · exact soundAgg_fail _ _ _ _ _ _ (by decide) (by decide)
            · split
              · exact soundAgg_fail _ _ _ _ _ _ (by decide) (by decide)
              · exact soundAgg_localPost _ _ _ _ _ _ _ _

lemma soundAgg_sshMain (env : Env) (req : RunActionRequest) (ssh : String)
    (cfg : SshConfig) (rp : String) (steps : List StepResult) :
    soundAgg (sshMain env req ssh cfg rp steps) := by
  simp only [sshMain]
  split
  · split
    · exact soundAgg_fail _ _ _ _ _ _ (by decide) (by decide)
    · exact soundAgg_done _ _ _ _
  · exact soundAgg_done _ _ _ _

lemma soundAgg_sshTail (env : Env) (req : RunActionRequest) (ssh : String)
    (cfg : SshConfig) (rp : String) (hasCommits : Bool) (steps : List StepResult) :
    soundAgg (sshTail env req ssh cfg rp hasCommits steps) := by
  simp only [sshTail]
  split
  · split
    · exact soundAgg_fail _ _ _ _ _ _ (by decide) (by decide)
    · split
      · exact soundAgg_fail _ _ _ _ _ _ (by decide) (by decide)
      · exact soundAgg_sshMain _ _ _ _ _ _
  · exact soundAgg_sshMain _ _ _ _ _ _

lemma soundAgg_sshPost (env : Env) (req : RunActionRequest) (ssh : String)
    (cfg : SshConfig) (rp cb : String) (hasCommits clean : Bool)
    (steps : List StepResult) :
    soundAgg (sshPost env req ssh cfg rp cb hasCommits clean steps) := by
  simp only [sshPost]
  split
  · split
    · exact soundAgg_fail _ _ _ _ _ _ (by decide) (by decide)
    · split
      · exact soundAgg_fail _ _ _ _ _ _ (by decide) (by decide)
      · split
        · exact soundAgg_fail _ _ _ _ _ _ (by decide) (by decide)
        · split
          · exact soundAgg_fail _ _ _ _ _ _ (by decide) (by decide)
          · exact soundAgg_sshTail _ _ _ _ _ _ _
  · exact soundAgg_sshTail _ _ _ _ _ _ _

lemma soundAgg_runSsh (env : Env) (req : RunActionRequest) :
    soundAgg (runSsh env req) := by
  simp only [runSsh]
  split
  · exact soundAgg_fail _ _ _ _ _ _ (by decide) (by decide)
  · split
    · exact soundAgg_fail _ _ _ _ _ _ (by decide) (by decide)
    · split
      · exact soundAgg_fail _ _ _ _ _ _ (by decide) (by decide)
      · split
        · exact soundAgg_fail _ _ _ _ _ _ (by decide) (by decide)
        · split
          · exact soundAgg_fail _ _ _ _ _ _ (by decide) (by decide)
          · exact soundAgg_sshPost _ _ _ _ _ _ _ _ _

lemma soundAgg_run_action (env : Env) (req : RunActionRequest) :
    soundAgg (run_action env req) := by
  simp only [run_action]
  split
  · exact soundAgg_fail _ _ _ _ _ _ (by decide) (by decide)
  · split
    · exact soundAgg_runLocal _ _
    · split
      · exact soundAgg_runSsh _ _
      · exact soundAgg_fail _ _ _ _ _ _ (by decide) (by decide)

/-! ## Entry reduction lemmas -/

/-- When the action name is valid, mode is local, the executable and path
validations pass, branch detection succeeds and the status query runs, the
run reduces to `localPost` over the three probe steps, head probe first. -/
lemma run_action_local_eq (env : Env) (req : RunActionRequest) (g : String)
    (hact : req.action = "pull" ∨ req.action = "push" ∨ req.action = "merge")
    (hm : req.mode = "local")
    (hg : env.resolveGit
      (if (strTrim req.gitPath).isEmpty = true then none else some req.gitPath) = some g)
    (hlp : (strTrim req.localPath).isEmpty = false)
    (hex : env.pathExists (strTrim req.localPath) = true)
    (hdir : env.pathIsDir (strTrim req.localPath) = true)
    (hdg : env.hasDotGit (strTrim req.localPath) = true)
    (hbr : (brStepL env g (strTrim req.localPath)).ok = true)
    (hst : (stStepL env g (strTrim req.localPath)).ok = true) :
    run_action env req =
      localPost env req g (strTrim req.localPath)
        (strTrim (brStepL env g (strTrim req.localPath)).stdout)
        (headStepL env g (strTrim req.localPath)).ok
        ((strTrim (stStepL env g (strTrim req.localPath)).stdout).isEmpty)
        [headStepL env g (strTrim req.localPath), brStepL env g (strTrim req.localPath),
         stStepL env g (strTrim req.localPath)] := by
  have hact' : ¬ (req.action ≠ "pull" ∧ req.action ≠ "push" ∧ req.action ≠ "merge") := by
    rcases hact with h | h | h <;> simp [h]
  simp [run_action, if_neg hact', hm, runLocal, hg, hlp, hex, hdir, hdg, hbr, hst]

/-- Ssh-mode analogue of `run_action_local_eq`: the run reduces to
`sshPost` over the three probe steps, branch detection first. -/
lemma run_action_ssh_eq (env : Env) (req : RunActionRequest) (s : String)
    (hact : req.action = "pull" ∨ req.action = "push" ∨ req.action = "merge")
    (hm : req.mode = "ssh")
    (hs : env.resolveSsh
      (if (strTrim req.sshPath).isEmpty = true then none else some req.sshPath) = some s)
    (hhost : (strTrim req.ssh.host).isEmpty = false)
    (huser : (strTrim req.ssh.user).isEmpty = false)
    (hrp : (strTrim req.remotePath).isEmpty = false)
    (hbr : (brStepS env s req.ssh (strTrim req.remotePath)).ok = true)
    (hst : (stStepS env s req.ssh (strTrim req.remotePath)).ok = true) :
    run_action env req =
      sshPost env req s req.ssh (strTrim req.remotePath)
        (strTrim (brStepS env s req.ssh (strTrim req.remotePath)).stdout)
        (headStepS env s req.ssh (strTrim req.remotePath)).ok
        ((strTrim (stStepS env s req.ssh (strTrim req.remotePath)).stdout).isEmpty)
        [brStepS env s req.ssh (strTrim req.remotePath),
         headStepS env s req.ssh (strTrim req.remotePath),
         stStepS env s req.ssh (strTrim req.remotePath)] := by
  have hact' : ¬ (req.action ≠ "pull" ∧ req.action ≠ "push" ∧ req.action ≠ "merge") := by
    rcases hact with h | h | h <;> simp [h]
  have hm' : req.mode ≠ "local" := by simp [hm]
  simp [run_action, if_neg hact', if_neg hm', hm, runSsh, hs, hhost, huser, hrp, hbr, hst]

/-! ## C1 -/

/-- C1: for every `run_action` invocation that completes the full step
sequence (its error is absent or one of the two generic end-of-run errors,
which no precondition short-circuit produces), the aggregate `ok` flag
equals the AND of the `ok` flags of every step in the trace; and in every
returned outcome, `ok = true` implies every step in the trace succeeded. -/
theorem c1_aggregate_ok_and (env : Env) (req : RunActionRequest) :
    (completedRun (run_action env req) →
      (run_action env req).ok = (run_action env req).steps.all (fun s => s.ok)) ∧
    ((run_action env req).ok = true →
      (run_action env req).steps.all (fun s => s.ok) = true) :=
  ⟨(soundAgg_run_action env req).1, (soundAgg_run_action env req).2.1⟩

/-- C1 witness: a concrete completed local pull run. -/
theorem c1_aggregate_ok_and_witness :
    completedRun (run_action envOk reqBase) ∧
    (run_action envOk reqBase).ok =
      (run_action envOk reqBase).steps.all (fun s => s.ok) :=
  ⟨by decide, (c1_aggregate_ok_and envOk reqBase).1 (by decide)⟩

/-! ## Append-only trace construction -/

lemma steps_ext_localFinish (env : Env) (req : RunActionRequest) (g lp : String)
    (steps : List StepResult) : steps <+: (localFinish env req g lp steps).steps := by
  simp only [localFinish, failOutcome, doneOutcome]
  split
  · split <;>
      (split <;> split <;> simp [List.append_assoc, List.prefix_append])
  · split <;> split <;> simp [List.append_assoc, List.prefix_append]

lemma steps_ext_localTail (env : Env) (req : RunActionRequest) (g lp : String)
    (hasCommits : Bool) (steps : List StepResult) :
    steps <+: (localTail env req g lp hasCommits steps).steps := by
  have hfc : steps <+:
      steps ++ [fetchStepL env g lp, checkoutStepL env g lp req.branch] :=
    List.prefix_append _ _
  simp only [localTail]
  split
  · split
    · exact hfc
    · split
      · simp only [failOutcome]
        exact hfc.trans (List.prefix_append _ _)
      · exact hfc.trans ((List.prefix_append _ _).trans (steps_ext_localFinish _ _ _ _ _))
  · exact hfc.trans (steps_ext_localFinish _ _ _ _ _)

lemma steps_ext_localPost (env : Env) (req : RunActionRequest) (g lp cb : String)
    (hasCommits clean : Bool) (steps : List StepResult) :
    steps <+: (localPost env req g lp cb hasCommits clean steps).steps := by
  simp only [localPost]
  have h1 : steps <+: (if req.action ≠ "push" ∧ clean = false
      then steps ++ [adjustStash (stashStepL env g lp)] else steps) := by
    split <;> simp [List.prefix_append]
  split
  · split
    · exact h1
    · split
      · exact h1
      · split
        · simp only [failOutcome]
          exact h1.trans (List.prefix_append _ _)
        · split
          · simp only [failOutcome]
            exact h1.trans (List.prefix_append _ _)
          · exact h1.trans ((List.prefix_append _ _).trans (steps_ext_localTail _ _ _ _ _ _))
  · exact h1.trans (steps_ext_localTail _ _ _ _ _ _)

/-! ## C4 -/

/-- C4 counterexample: a concrete local-mode pull on a clean tree with
target branch main produces a trace of six steps, not four — the HEAD
probe, the branch-detection step and the status query precede the four
steps named by the claim minus the status step it already counted. -/
theorem c4_counterexample :
    (run_action envOk reqBase).steps.length = 6 ∧
    ¬ (run_action envOk reqBase).steps.length = 4 := by
  decide

/-- C4 amended: for every local-mode pull request on a clean tree with
target branch main (validations passing, probes succeeding), the trace is
exactly the six steps HEAD probe, branch detection, status (clean), fetch
origin, checkout main, pull --ff-only origin main, and the aggregate flag
is the AND of those six step flags. -/
theorem c4_local_pull_clean_trace (env : Env) (req : RunActionRequest) (g : String)
    (hm : req.mode = "local") (ha : req.action = "pull") (hb : req.branch = "main")
    (hg : env.resolveGit
      (if (strTrim req.gitPath).isEmpty = true then none else some req.gitPath) = some g)
    (hlp : (strTrim req.localPath).isEmpty = false)
    (hex : env.pathExists (strTrim req.localPath) = true)
    (hdir : env.pathIsDir (strTrim req.localPath) = true)
    (hdg : env.hasDotGit (strTrim req.localPath) = true)
    (hbr : (brStepL env g (strTrim req.localPath)).ok = true)
    (hst : (stStepL env g (strTrim req.localPath)).ok = true)
    (hclean : ((strTrim (stStepL env g (strTrim req.localPath)).stdout)).isEmpty = true) :
    (run_action env req).steps =
      [headStepL env g (strTrim req.localPath), brStepL env g (strTrim req.localPath),
       stStepL env g (strTrim req.localPath), fetchStepL env g (strTrim req.localPath),
       checkoutStepL env g (strTrim req.localPath) "main",
       pullStepL env g (strTrim req.localPath) "main"] ∧
    (run_action env req).ok =
      ((headStepL env g (strTrim req.localPath)).ok &&
       (brStepL env g (strTrim req.localPath)).ok &&
       (stStepL env g (strTrim req.localPath)).ok &&
       (fetchStepL env g (strTrim req.localPath)).ok &&
       (checkoutStepL env g (strTrim req.localPath) "main").ok &&
       (pullStepL env g (strTrim req.localPath) "main").ok) := by
  rw [run_action_local_eq env req g (Or.inl ha) hm hg hlp hex hdir hdg hbr hst]
  simp [localPost, localTail, localFinish, ha, hb, hclean, doneOutcome,
    Bool.and_assoc]

/-- C4 witness: the amended statement at a concrete machine and request. -/
theorem c4_local_pull_clean_trace_witness :
    (run_action envOk reqBase).steps =
      [headStepL envOk "git" "/repo", brStepL envOk "git" "/repo",
       stStepL envOk "git" "/repo", fetchStepL envOk "git" "/repo",
       checkoutStepL envOk "git" "/repo" "main", pullStepL envOk "git" "/repo" "main"] ∧
    (run_action envOk reqBase).ok =
      ((headStepL envOk "git" "/repo").ok && (brStepL envOk "git" "/repo").ok &&
       (stStepL envOk "git" "/repo").ok && (fetchStepL envOk "git" "/repo").ok &&
       (checkoutStepL envOk "git" "/repo" "main").ok &&
       (pullStepL envOk "git" "/repo" "main").ok) := by
  have h := c4_local_pull_clean_trace envOk reqBase "git" (by decide) (by decide)
    (by decide) (by decide) (by decide) (by decide) (by decide) (by decide)
    (by decide) (by decide) (by decide)
  exact h

/-! ## C5 -/

/-- C5 counterexample: on a concrete local run the first trace entry is
the HEAD-existence probe (rev-parse) and the second is the
branch-detection step (symbolic-ref), two distinct commands — so the
branch-detection step, although executed first, does not appear in the
trace before the HEAD-existence probe. -/
theorem c5_counterexample :
    ((run_action envOk reqBase).steps.take 2).map (fun s => s.cmd) =
      ["git -C /repo rev-parse --verify HEAD",
       "git -C /repo symbolic-ref --short HEAD"] ∧
    ¬ (("git -C /repo symbolic-ref --short HEAD" : String) =
       "git -C /repo rev-parse --verify HEAD") := by
  decide

/-- C5 amended: the trace is built append-only (the probe triple is a
prefix of every returned trace once the probes ran), but in local mode the
branch-detection step — executed first — is appended after the
HEAD-existence probe, so the trace begins with HEAD probe, then branch
detection, then the status query. -/
theorem c5_trace_order (env : Env) (req : RunActionRequest) (g : String)
    (hact : req.action = "pull" ∨ req.action = "push" ∨ req.action = "merge")
    (hm : req.mode = "local")
    (hg : env.resolveGit
      (if (strTrim req.gitPath).isEmpty = true then none else some req.gitPath) = some g)
    (hlp : (strTrim req.localPath).isEmpty = false)
    (hex : env.pathExists (strTrim req.localPath) = true)
    (hdir : env.pathIsDir (strTrim req.localPath) = true)
    (hdg : env.hasDotGit (strTrim req.localPath) = true)
    (hbr : (brStepL env g (strTrim req.localPath)).ok = true)
    (hst : (stStepL env g (strTrim req.localPath)).ok = true) :
    [headStepL env g (strTrim req.localPath), brStepL env g (strTrim req.localPath),
     stStepL env g (strTrim req.localPath)] <+: (run_action env req).steps := by
  rw [run_action_local_eq env req g hact hm hg hlp hex hdir hdg hbr hst]
  exact steps_ext_localPost _ _ _ _ _ _ _ _

/-- C5 witness: the amended prefix statement at a concrete machine. -/
theorem c5_trace_order_witness :
    [headStepL envOk "git" "/repo", brStepL envOk "git" "/repo",
     stStepL envOk "git" "/repo"] <+: (run_action envOk reqBase).steps := by
  have h := c5_trace_order envOk reqBase "git" (Or.inl (by decide)) (by decide)
    (by decide) (by decide) (by decide) (by decide) (by decide) (by decide) (by decide)
  exact h

/-! ## Further concrete machines -/

/-- Substring occurrence test used to route concrete command results. -/
def hasSub (pat a : String) : Bool := decide (pat.data <:+: a.data)

/-- Some argument of the invocation contains the given fragment. -/
def argHasSub (pat : String) (args : List String) : Bool :=
  args.any (fun a => hasSub pat a)

/-- A machine with a dirty working tree whose current branch reads `dev`:
branch detection prints a branch other than `main`, the status query
prints a modification, everything else succeeds. -/
def envDirtyWrongBranch : Env :=
  { envOk with exec := fun _ args _ =>
      if argHasSub "symbolic-ref" args then .out true (some 0) "dev\n" ""
      else if argHasSub "status" args then .out true (some 0) " M file.txt" ""
      else okOut }

/-- A machine whose repository has no commits: the HEAD verification
fails, everything else succeeds with empty output (clean tree). -/
def envNoCommits : Env :=
  { envOk with exec := fun _ args _ =>
      if argHasSub "--verify" args then .out false (some 128) "" "fatal: bad revision"
      else okOut }

/-- The baseline request as a local push. -/
def reqPushL : RunActionRequest :=
  { reqBase with action := "push", commitMessage := some "wip" }

/-- The baseline request as an ssh push. -/
def reqPushS : RunActionRequest :=
  { reqBase with action := "push", mode := "ssh", commitMessage := some "wip" }

/-! ## C6 -/

/-- C6: for every push request where the tree is dirty and the detected
current branch differs from the requested target branch, the run stops
with the dirty-on-a-different-branch error and the trace holds exactly the
three probe steps — no staging or commit step is executed or recorded.
Stated for both modes. -/
theorem c6_dirty_push_wrong_branch (env : Env) (req : RunActionRequest) (g s : String) :
    (req.mode = "local" → req.action = "push" →
     env.resolveGit
       (if (strTrim req.gitPath).isEmpty = true then none else some req.gitPath) = some g →
     (strTrim req.localPath).isEmpty = false →
     env.pathExists (strTrim req.localPath) = true →
     env.pathIsDir (strTrim req.localPath) = true →
     env.hasDotGit (strTrim req.localPath) = true →
     (brStepL env g (strTrim req.localPath)).ok = true →
     (stStepL env g (strTrim req.localPath)).ok = true →
     (strTrim (stStepL env g (strTrim req.localPath)).stdout).isEmpty = false →
     strTrim (brStepL env g (strTrim req.localPath)).stdout ≠ req.branch →
     run_action env req =
       failOutcome req "GIT-0103" "ERROR" "working tree is dirty on a different branch"
         (some ("current_branch=" ++ strTrim (brStepL env g (strTrim req.localPath)).stdout
                ++ " target_branch=" ++ req.branch))
         [headStepL env g (strTrim req.localPath), brStepL env g (strTrim req.localPath),
          stStepL env g (strTrim req.localPath)]) ∧
    (req.mode = "ssh" → req.action = "push" →
     env.resolveSsh
       (if (strTrim req.sshPath).isEmpty = true then none else some req.sshPath) = some s →
     (strTrim req.ssh.host).isEmpty = false →
     (strTrim req.ssh.user).isEmpty = false →
     (strTrim req.remotePath).isEmpty = false →
     (brStepS env s req.ssh (strTrim req.remotePath)).ok = true →
     (stStepS env s req.ssh (strTrim req.remotePath)).ok = true →
     (strTrim (stStepS env s req.ssh (strTrim req.remotePath)).stdout).isEmpty = false →
     strTrim (brStepS env s req.ssh (strTrim req.remotePath)).stdout ≠ req.branch →
     run_action env req =
       failOutcome req "GIT-0104" "ERROR"
         "working tree is dirty on a non-target branch (checkout target branch first)"
         (some ("current=" ++ strTrim (brStepS env s req.ssh (strTrim req.remotePath)).stdout
                ++ ", target=" ++ req.branch))
         [brStepS env s req.ssh (strTrim req.remotePath),
          headStepS env s req.ssh (strTrim req.remotePath),
          stStepS env s req.ssh (strTrim req.remotePath)]) := by
  constructor
  · intro hm ha hg hlp hex hdir hdg hbr hst hdirty hne
    rw [run_action_local_eq env req g (Or.inr (Or.inl ha)) hm hg hlp hex hdir hdg hbr hst]
    simp [localPost, ha, hdirty, hne]
  · intro hm ha hs hhost huser hrp hbr hst hdirty hne
    rw [run_action_ssh_eq env req s (Or.inr (Or.inl ha)) hm hs hhost huser hrp hbr hst]
    simp [sshPost, ha, hdirty, hne]

/-- C6 witness: both conjuncts at a concrete dirty machine on branch dev. -/
theorem c6_dirty_push_wrong_branch_witness :
    (run_action envDirtyWrongBranch reqPushL).error =
      some { code := "GIT-0103", severity := "ERROR",
             message := "working tree is dirty on a different branch",
             detail := some "current_branch=dev target_branch=main" } ∧
    (run_action envDirtyWrongBranch reqPushS).error =
      some { code := "GIT-0104", severity := "ERROR",
             message := "working tree is dirty on a non-target branch (checkout target branch first)",
             detail := some "current=dev, target=main" } := by
  have h1 := (c6_dirty_push_wrong_branch envDirtyWrongBranch reqPushL "git" "ssh").1
    (by decide) (by decide) (by decide) (by decide) (by decide) (by decide) (by decide)
    (by decide) (by decide) (by decide) (by decide)
  have h2 := (c6_dirty_push_wrong_branch envDirtyWrongBranch reqPushS "git" "ssh").2
    (by decide) (by decide) (by decide) (by decide) (by decide) (by decide) (by decide)
    (by decide) (by decide) (by decide)
  rw [h1, h2]
  decide

/-! ## C7 -/

/-- A machine on which every fetch fails and everything else succeeds
with empty output (clean tree). -/
def envFetchFail : Env :=
  { envOk with exec := fun _ args _ =>
      if argHasSub "fetch" args then .out false (some 1) "" "network error"
      else okOut }

/-- The baseline request as an ssh merge from branch feature. -/
def reqMergeS : RunActionRequest :=
  { reqBase with mode := "ssh", action := "merge", mergeFromBranch := some "feature" }

/-- C7: for every pull or merge request on a clean tree, the sequence is
not short-circuited at fetch: even when the fetch step fails, the checkout
step and the action-specific tail are still executed and recorded in the
trace, in both modes. -/
theorem c7_fetch_failure_does_not_stop (env : Env) (req : RunActionRequest) (g s : String) :
    (req.mode = "local" →
     env.resolveGit
       (if (strTrim req.gitPath).isEmpty = true then none else some req.gitPath) = some g →
     (strTrim req.localPath).isEmpty = false →
     env.pathExists (strTrim req.localPath) = true →
     env.pathIsDir (strTrim req.localPath) = true →
     env.hasDotGit (strTrim req.localPath) = true →
     (brStepL env g (strTrim req.localPath)).ok = true →
     (stStepL env g (strTrim req.localPath)).ok = true →
     (strTrim (stStepL env g (strTrim req.localPath)).stdout).isEmpty = true →
     (fetchStepL env g (strTrim req.localPath)).ok = false →
     ((req.action = "pull" →
       (run_action env req).steps =
         [headStepL env g (strTrim req.localPath), brStepL env g (strTrim req.localPath),
          stStepL env g (strTrim req.localPath), fetchStepL env g (strTrim req.localPath),
          checkoutStepL env g (strTrim req.localPath) req.branch,
          pullStepL env g (strTrim req.localPath) req.branch]) ∧
      (req.action = "merge" →
       (strTrim (req.mergeFromBranch.getD "")).isEmpty = false →
       (run_action env req).steps =
         [headStepL env g (strTrim req.localPath), brStepL env g (strTrim req.localPath),
          stStepL env g (strTrim req.localPath), fetchStepL env g (strTrim req.localPath),
          checkoutStepL env g (strTrim req.localPath) req.branch,
          mergeFetchStepL env g (strTrim req.localPath) (req.mergeFromBranch.getD ""),
          mergeStepL env g (strTrim req.localPath) (req.mergeFromBranch.getD ""),
          pushStepL env g (strTrim req.localPath) req.branch]))) ∧
    (req.mode = "ssh" →
     env.resolveSsh
       (if (strTrim req.sshPath).isEmpty = true then none else some req.sshPath) = some s →
     (strTrim req.ssh.host).isEmpty = false →
     (strTrim req.ssh.user).isEmpty = false →
     (strTrim req.remotePath).isEmpty = false →
     (brStepS env s req.ssh (strTrim req.remotePath)).ok = true →
     (stStepS env s req.ssh (strTrim req.remotePath)).ok = true →
     (strTrim (stStepS env s req.ssh (strTrim req.remotePath)).stdout).isEmpty = true →
     (fetchStepS env s req.ssh (strTrim req.remotePath)).ok = false →
     ((req.action = "pull" →
       (run_action env req).steps =
         [brStepS env s req.ssh (strTrim req.remotePath),
          headStepS env s req.ssh (strTrim req.remotePath),
          stStepS env s req.ssh (strTrim req.remotePath),
          fetchStepS env s req.ssh (strTrim req.remotePath),
          checkoutStepS env s req.ssh (strTrim req.remotePath) req.branch,
          pullStepS env s req.ssh (strTrim req.remotePath) req.branch]) ∧
      (req.action = "merge" →
       (strTrim (req.mergeFromBranch.getD "")).isEmpty = false →
       (run_action env req).steps =
         [brStepS env s req.ssh (strTrim req.remotePath),
          headStepS env s req.ssh (strTrim req.remotePath),
          stStepS env s req.ssh (strTrim req.remotePath),
          fetchStepS env s req.ssh (strTrim req.remotePath),
          checkoutStepS env s req.ssh (strTrim req.remotePath) req.branch,
          mergeFetchStepS env s req.ssh (strTrim req.remotePath)
            (strTrim (req.mergeFromBranch.getD "")),
          mergeStepS env s req.ssh (strTrim req.remotePath)
            (strTrim (req.mergeFromBranch.getD "")),
          pushStepS env s req.ssh (strTrim req.remotePath) req.branch]))) := by
  constructor
  · intro hm hg hlp hex hdir hdg hbr hst hclean _
    constructor
    · intro ha
      rw [run_action_local_eq env req g (Or.inl ha) hm hg hlp hex hdir hdg hbr hst]
      simp [localPost, localTail, localFinish, ha, hclean, doneOutcome]
    · intro ha hfrom
      rw [run_action_local_eq env req g (Or.inr (Or.inr ha)) hm hg hlp hex hdir hdg hbr hst]
      simp [localPost, localTail, localFinish, ha, hclean, hfrom, doneOutcome]
  · intro hm hs hhost huser hrp hbr hst hclean _
    constructor
    · intro ha
      rw [run_action_ssh_eq env req s (Or.inl ha) hm hs hhost huser hrp hbr hst]
      simp [sshPost, sshTail, sshMain, ha, hclean, doneOutcome]
    · intro ha hfrom
      rw [run_action_ssh_eq env req s (Or.inr (Or.inr ha)) hm hs hhost huser hrp hbr hst]
      simp [sshPost, sshTail, sshMain, ha, hclean, hfrom, doneOutcome]

/-- C7 witness: a local pull and an ssh merge on a machine whose fetches
fail; checkout and the action tail appear in the returned traces. -/
theorem c7_fetch_failure_does_not_stop_witness :
    (run_action envFetchFail reqBase).steps =
      [headStepL envFetchFail "git" "/repo", brStepL envFetchFail "git" "/repo",
       stStepL envFetchFail "git" "/repo", fetchStepL envFetchFail "git" "/repo",
       checkoutStepL envFetchFail "git" "/repo" "main",
       pullStepL envFetchFail "git" "/repo" "main"] ∧
    (run_action envFetchFail reqMergeS).steps =
      [brStepS envFetchFail "ssh" reqMergeS.ssh "/srv/repo",
       headStepS envFetchFail "ssh" reqMergeS.ssh "/srv/repo",
       stStepS envFetchFail "ssh" reqMergeS.ssh "/srv/repo",
       fetchStepS envFetchFail "ssh" reqMergeS.ssh "/srv/repo",
       checkoutStepS envFetchFail "ssh" reqMergeS.ssh "/srv/repo" "main",
       mergeFetchStepS envFetchFail "ssh" reqMergeS.ssh "/srv/repo" "feature",
       mergeStepS envFetchFail "ssh" reqMergeS.ssh "/srv/repo" "feature",
       pushStepS envFetchFail "ssh" reqMergeS.ssh "/srv/repo" "main"] := by
  have h1 := ((c7_fetch_failure_does_not_stop envFetchFail reqBase "git" "ssh").1
    (by decide) (by decide) (by decide) (by decide) (by decide) (by decide)
    (by decide) (by decide) (by decide) (by decide)).1 (by decide)
  have h2 := ((c7_fetch_failure_does_not_stop envFetchFail reqMergeS "git" "ssh").2
    (by decide) (by decide) (by decide) (by decide) (by decide) (by decide)
    (by decide) (by decide) (by decide)).2 (by decide) (by decide)
  exact ⟨h1, h2⟩

/-! ## C8 -/

/-- A stash step whose process failed but whose output reports a saved
working-directory snapshot. -/
def stashSavedExample : StepResult :=
  { cmd := "git -C /repo stash --include-untracked", cwd := none, ok := false,
    exitCode := 1, stdout := "Saved working directory and index state WIP on main",
    stderr := "warning: permission denied on some attribute" }

/-- C8: the auto-stash step recorded before a dirty pull or merge carries
the leniency rule: its flag is true whenever stdout contains the
snapshot-saved indicator, even when the process failed, and otherwise it
is the process success flag; and on a dirty local pull the recorded trace
entry is exactly the adjusted stash step, between the probes and fetch. -/
theorem c8_stash_leniency (env : Env) (req : RunActionRequest) (g : String)
    (st : StepResult) :
    ((adjustStash st).ok = (containsSaved st.stdout || st.ok)) ∧
    (req.mode = "local" → req.action = "pull" →
     env.resolveGit
       (if (strTrim req.gitPath).isEmpty = true then none else some req.gitPath) = some g →
     (strTrim req.localPath).isEmpty = false →
     env.pathExists (strTrim req.localPath) = true →
     env.pathIsDir (strTrim req.localPath) = true →
     env.hasDotGit (strTrim req.localPath) = true →
     (brStepL env g (strTrim req.localPath)).ok = true →
     (stStepL env g (strTrim req.localPath)).ok = true →
     (strTrim (stStepL env g (strTrim req.localPath)).stdout).isEmpty = false →
     (run_action env req).steps =
       [headStepL env g (strTrim req.localPath), brStepL env g (strTrim req.localPath),
        stStepL env g (strTrim req.localPath),
        adjustStash (stashStepL env g (strTrim req.localPath)),
        fetchStepL env g (strTrim req.localPath),
        checkoutStepL env g (strTrim req.localPath) req.branch,
        pullStepL env g (strTrim req.localPath) req.branch]) := by
  constructor
  · by_cases h : containsSaved st.stdout = true
    · simp [adjustStash, h]
    · simp only [Bool.not_eq_true] at h
      simp [adjustStash, h]
  · intro hm ha hg hlp hex hdir hdg hbr hst hdirty
    rw [run_action_local_eq env req g (Or.inl ha) hm hg hlp hex hdir hdg hbr hst]
    simp [localPost, localTail, localFinish, ha, hdirty, doneOutcome]

/-- C8 witness: the flag equation at a failed-but-saved stash step, and
the dirty-pull trace at a concrete dirty machine. -/
theorem c8_stash_leniency_witness :
    ((adjustStash stashSavedExample).ok =
      (containsSaved stashSavedExample.stdout || stashSavedExample.ok)) ∧
    (run_action envDirtyWrongBranch reqBase).steps =
      [headStepL envDirtyWrongBranch "git" "/repo", brStepL envDirtyWrongBranch "git" "/repo",
       stStepL envDirtyWrongBranch "git" "/repo",
       adjustStash (stashStepL envDirtyWrongBranch "git" "/repo"),
       fetchStepL envDirtyWrongBranch "git" "/repo",
       checkoutStepL envDirtyWrongBranch "git" "/repo" "main",
       pullStepL envDirtyWrongBranch "git" "/repo" "main"] := by
  have h := c8_stash_leniency envDirtyWrongBranch reqBase "git" stashSavedExample
  exact ⟨h.1, h.2 (by decide) (by decide) (by decide) (by decide) (by decide)
    (by decide) (by decide) (by decide) (by decide) (by decide)⟩

/-! ## C2 -/

/-- An ssh merge request with no merge-source branch supplied. -/
def reqMergeNoFromS : RunActionRequest :=
  { reqBase with mode := "ssh", action := "merge" }

/-- C2 counterexample: on a concrete machine where every remote command
succeeds, an ssh merge with a missing merge-source branch still returns
the configuration error, but only after five remote commands (branch
probe, HEAD probe, status, fetch, checkout) already ran and were traced —
not before any command executed. -/
theorem c2_counterexample :
    (run_action envOk reqMergeNoFromS).steps.length = 5 ∧
    (run_action envOk reqMergeNoFromS).error =
      some { code := "CFG-0201", severity := "ERROR",
             message := "mergeFromBranch is required for merge", detail := none } := by
  decide

/-- A local merge request with no merge-source branch supplied. -/
def reqMergeNoFromL : RunActionRequest :=
  { reqBase with action := "merge" }

/-- C2 amended: for every merge request, in either mode and on a clean or
dirty tree, whose merge-source branch is missing or blank (validations and
probes passing), the run returns a Failed outcome with a configuration
error (CFG-0003 locally, CFG-0201 over ssh) — but the validation happens
inside the action-specific tail: the probes, the auto-stash when the tree
was dirty, the fetch of origin and the checkout have already executed and
are in the trace; only the merge-specific commands (fetch of the source,
merge, push) never run. -/
theorem c2_merge_source_validated_late (env : Env) (req : RunActionRequest) (g s : String) :
    (req.mode = "local" → req.action = "merge" →
     (strTrim (req.mergeFromBranch.getD "")).isEmpty = true →
     env.resolveGit
       (if (strTrim req.gitPath).isEmpty = true then none else some req.gitPath) = some g →
     (strTrim req.localPath).isEmpty = false →
     env.pathExists (strTrim req.localPath) = true →
     env.pathIsDir (strTrim req.localPath) = true →
     env.hasDotGit (strTrim req.localPath) = true →
     (brStepL env g (strTrim req.localPath)).ok = true →
     (stStepL env g (strTrim req.localPath)).ok = true →
     run_action env req =
       failOutcome req "CFG-0003" "ERROR" "mergeFromBranch is required for merge" none
         ([headStepL env g (strTrim req.localPath), brStepL env g (strTrim req.localPath),
           stStepL env g (strTrim req.localPath)] ++
          (if (strTrim (stStepL env g (strTrim req.localPath)).stdout).isEmpty = true then []
           else [adjustStash (stashStepL env g (strTrim req.localPath))]) ++
          [fetchStepL env g (strTrim req.localPath),
           checkoutStepL env g (strTrim req.localPath) req.branch])) ∧
    (req.mode = "ssh" → req.action = "merge" →
     (strTrim (req.mergeFromBranch.getD "")).isEmpty = true →
     env.resolveSsh
       (if (strTrim req.sshPath).isEmpty = true then none else some req.sshPath) = some s →
     (strTrim req.ssh.host).isEmpty = false →
     (strTrim req.ssh.user).isEmpty = false →
     (strTrim req.remotePath).isEmpty = false →
     (brStepS env s req.ssh (strTrim req.remotePath)).ok = true →
     (stStepS env s req.ssh (strTrim req.remotePath)).ok = true →
     run_action env req =
       failOutcome req "CFG-0201" "ERROR" "mergeFromBranch is required for merge" none
         ([brStepS env s req.ssh (strTrim req.remotePath),
           headStepS env s req.ssh (strTrim req.remotePath),
           stStepS env s req.ssh (strTrim req.remotePath)] ++
          (if (strTrim (stStepS env s req.ssh (strTrim req.remotePath)).stdout).isEmpty = true
           then []
           else [adjustStash (stashStepS env s req.ssh (strTrim req.remotePath))]) ++
          [fetchStepS env s req.ssh (strTrim req.remotePath),
           checkoutStepS env s req.ssh (strTrim req.remotePath) req.branch])) := by
  constructor
  · intro hm ha hfrom hg hlp hex hdir hdg hbr hst
    rw [run_action_local_eq env req g (Or.inr (Or.inr ha)) hm hg hlp hex hdir hdg hbr hst]
    by_cases hclean :
        (strTrim (stStepL env g (strTrim req.localPath)).stdout).isEmpty = true
    · simp [localPost, localTail, localFinish, ha, hclean, hfrom]
    · simp only [Bool.not_eq_true] at hclean
      simp [localPost, localTail, localFinish, ha, hclean, hfrom]
  · intro hm ha hfrom hs hhost huser hrp hbr hst
    rw [run_action_ssh_eq env req s (Or.inr (Or.inr ha)) hm hs hhost huser hrp hbr hst]
    by_cases hclean :
        (strTrim (stStepS env s req.ssh (strTrim req.remotePath)).stdout).isEmpty = true
    · simp [sshPost, sshTail, sshMain, ha, hclean, hfrom]
    · simp only [Bool.not_eq_true] at hclean
      simp [sshPost, sshTail, sshMain, ha, hclean, hfrom]

/-- C2 witness: the amended statement at concrete machines — a clean
local merge and a dirty ssh merge (the latter tracing the auto-stash step
before fetch and checkout). -/
theorem c2_merge_source_validated_late_witness :
    run_action envOk reqMergeNoFromL =
      failOutcome reqMergeNoFromL "CFG-0003" "ERROR"
        "mergeFromBranch is required for merge" none
        [headStepL envOk "git" "/repo", brStepL envOk "git" "/repo",
         stStepL envOk "git" "/repo", fetchStepL envOk "git" "/repo",
         checkoutStepL envOk "git" "/repo" "main"] ∧
    run_action envDirtyWrongBranch reqMergeNoFromS =
      failOutcome reqMergeNoFromS "CFG-0201" "ERROR"
        "mergeFromBranch is required for merge" none
        [brStepS envDirtyWrongBranch "ssh" reqMergeNoFromS.ssh "/srv/repo",
         headStepS envDirtyWrongBranch "ssh" reqMergeNoFromS.ssh "/srv/repo",
         stStepS envDirtyWrongBranch "ssh" reqMergeNoFromS.ssh "/srv/repo",
         adjustStash (stashStepS envDirtyWrongBranch "ssh" reqMergeNoFromS.ssh "/srv/repo"),
         fetchStepS envDirtyWrongBranch "ssh" reqMergeNoFromS.ssh "/srv/repo",
         checkoutStepS envDirtyWrongBranch "ssh" reqMergeNoFromS.ssh "/srv/repo" "main"] := by
  have h1 := (c2_merge_source_validated_late envOk reqMergeNoFromL "git" "ssh").1
    (by decide) (by decide) (by decide) (by decide) (by decide) (by decide)
    (by decide) (by decide) (by decide) (by decide)
  have h2 := (c2_merge_source_validated_late envDirtyWrongBranch reqMergeNoFromS "git" "ssh").2
    (by decide) (by decide) (by decide) (by decide) (by decide) (by decide)
    (by decide) (by decide) (by decide)
  rw [h1, h2]
  exact ⟨by decide, by decide⟩

/-! ## C3 -/

/-- C3 counterexample: on a concrete empty local repository with a clean
tree and commit message wip, the fetch step sits at trace position 3 and
the explicit empty commit at position 5 — the empty commit does not
precede the fetch step in the executed sequence or the trace. -/
theorem c3_counterexample :
    ((run_action envNoCommits reqPushL).steps.map (fun s => s.cmd)).indexOf
        "git -C /repo fetch origin" = 3 ∧
    ((run_action envNoCommits reqPushL).steps.map (fun s => s.cmd)).indexOf
        "git -C /repo commit --allow-empty -m wip" = 5 := by
  decide

/-- C3 amended: for every push request on a commit-less repository with a
clean tree, a non-blank commit message is required (else the run fails
with the dedicated error) and an explicit empty commit step is created,
whose failure stops the run — but its position differs by mode: in local
mode it is created after the Fetch and Checkout steps, immediately before
the push, while in ssh mode it precedes the Fetch step as the claim
describes. -/
theorem c3_empty_repo_push (env : Env) (req : RunActionRequest) (g s : String) :
    (req.mode = "local" → req.action = "push" →
     env.resolveGit
       (if (strTrim req.gitPath).isEmpty = true then none else some req.gitPath) = some g →
     (strTrim req.localPath).isEmpty = false →
     env.pathExists (strTrim req.localPath) = true →
     env.pathIsDir (strTrim req.localPath) = true →
     env.hasDotGit (strTrim req.localPath) = true →
     (brStepL env g (strTrim req.localPath)).ok = true →
     (stStepL env g (strTrim req.localPath)).ok = true →
     (headStepL env g (strTrim req.localPath)).ok = false →
     (strTrim (stStepL env g (strTrim req.localPath)).stdout).isEmpty = true →
     (((strTrim (req.commitMessage.getD "")).isEmpty = true →
       run_action env req =
         failOutcome req "GIT-0107" "ERROR"
           "push requires commitMessage when repository has no commits" none
           [headStepL env g (strTrim req.localPath), brStepL env g (strTrim req.localPath),
            stStepL env g (strTrim req.localPath), fetchStepL env g (strTrim req.localPath),
            checkoutStepL env g (strTrim req.localPath) req.branch]) ∧
      ((strTrim (req.commitMessage.getD "")).isEmpty = false →
       (emptyCommitStepL env g (strTrim req.localPath)
          (strTrim (req.commitMessage.getD ""))).ok = false →
       run_action env req =
         failOutcome req "GIT-0108" "ERROR" "git commit --allow-empty failed"
           (some (emptyCommitStepL env g (strTrim req.localPath)
                    (strTrim (req.commitMessage.getD ""))).stderr)
           [headStepL env g (strTrim req.localPath), brStepL env g (strTrim req.localPath),
            stStepL env g (strTrim req.localPath), fetchStepL env g (strTrim req.localPath),
            checkoutStepL env g (strTrim req.localPath) req.branch,
            emptyCommitStepL env g (strTrim req.localPath)
              (strTrim (req.commitMessage.getD ""))]) ∧
      ((strTrim (req.commitMessage.getD "")).isEmpty = false →
       (emptyCommitStepL env g (strTrim req.localPath)
          (strTrim (req.commitMessage.getD ""))).ok = true →
       (run_action env req).steps =
         [headStepL env g (strTrim req.localPath), brStepL env g (strTrim req.localPath),
          stStepL env g (strTrim req.localPath), fetchStepL env g (strTrim req.localPath),
          checkoutStepL env g (strTrim req.localPath) req.branch,
          emptyCommitStepL env g (strTrim req.localPath)
            (strTrim (req.commitMessage.getD "")),
          pushStepL env g (strTrim req.localPath) req.branch]))) ∧
    (req.mode = "ssh" → req.action = "push" →
     env.resolveSsh
       (if (strTrim req.sshPath).isEmpty = true then none else some req.sshPath) = some s →
     (strTrim req.ssh.host).isEmpty = false →
     (strTrim req.ssh.user).isEmpty = false →
     (strTrim req.remotePath).isEmpty = false →
     (brStepS env s req.ssh (strTrim req.remotePath)).ok = true →
     (stStepS env s req.ssh (strTrim req.remotePath)).ok = true →
     (headStepS env s req.ssh (strTrim req.remotePath)).ok = false →
     (strTrim (stStepS env s req.ssh (strTrim req.remotePath)).stdout).isEmpty = true →
     (((strTrim (req.commitMessage.getD "")).isEmpty = true →
       run_action env req =
         failOutcome req "GIT-0107" "ERROR"
           "push requires commitMessage when repository has no commits" none
           [brStepS env s req.ssh (strTrim req.remotePath),
            headStepS env s req.ssh (strTrim req.remotePath),
            stStepS env s req.ssh (strTrim req.remotePath)]) ∧
      ((strTrim (req.commitMessage.getD "")).isEmpty = false →
       (emptyCommitStepS env s req.ssh (strTrim req.remotePath)
          (strTrim (req.commitMessage.getD ""))).ok = false →
       run_action env req =
         failOutcome req "SSH-0201" "ERROR" "git commit --allow-empty failed on remote"
           (some (emptyCommitStepS env s req.ssh (strTrim req.remotePath)
                    (strTrim (req.commitMessage.getD ""))).stderr)
           [brStepS env s req.ssh (strTrim req.remotePath),
            headStepS env s req.ssh (strTrim req.remotePath),
            stStepS env s req.ssh (strTrim req.remotePath),
            emptyCommitStepS env s req.ssh (strTrim req.remotePath)
              (strTrim (req.commitMessage.getD ""))]) ∧
      ((strTrim (req.commitMessage.getD "")).isEmpty = false →
       (emptyCommitStepS env s req.ssh (strTrim req.remotePath)
          (strTrim (req.commitMessage.getD ""))).ok = true →
       (run_action env req).steps =
         [brStepS env s req.ssh (strTrim req.remotePath),
          headStepS env s req.ssh (strTrim req.remotePath),
          stStepS env s req.ssh (strTrim req.remotePath),
          emptyCommitStepS env s req.ssh (strTrim req.remotePath)
            (strTrim (req.commitMessage.getD "")),
          fetchStepS env s req.ssh (strTrim req.remotePath),
          checkoutStepS env s req.ssh (strTrim req.remotePath) req.branch,
          pushStepS env s req.ssh (strTrim req.remotePath) req.branch]))) := by
  constructor
  · intro hm ha hg hlp hex hdir hdg hbr hst hnc hclean
    refine ⟨?_, ?_, ?_⟩
    · intro hmsg
      rw [run_action_local_eq env req g (Or.inr (Or.inl ha)) hm hg hlp hex hdir hdg hbr hst]
      simp [localPost, localTail, localFinish, ha, hclean, hnc, hmsg]
    · intro hmsg hec
      rw [run_action_local_eq env req g (Or.inr (Or.inl ha)) hm hg hlp hex hdir hdg hbr hst]
      simp [localPost, localTail, localFinish, ha, hclean, hnc, hmsg, hec]
    · intro hmsg hec
      rw [run_action_local_eq env req g (Or.inr (Or.inl ha)) hm hg hlp hex hdir hdg hbr hst]
      simp [localPost, localTail, localFinish, ha, hclean, hnc, hmsg, hec, doneOutcome]
  · intro hm ha hs hhost huser hrp hbr hst hnc hclean
    refine ⟨?_, ?_, ?_⟩
    · intro hmsg
      rw [run_action_ssh_eq env req s (Or.inr (Or.inl ha)) hm hs hhost huser hrp hbr hst]
      simp [sshPost, sshTail, sshMain, ha, hclean, hnc, hmsg]
    · intro hmsg hec
      rw [run_action_ssh_eq env req s (Or.inr (Or.inl ha)) hm hs hhost huser hrp hbr hst]
      simp [sshPost, sshTail, sshMain, ha, hclean, hnc, hmsg, hec]
    · intro hmsg hec
      rw [run_action_ssh_eq env req s (Or.inr (Or.inl ha)) hm hs hhost huser hrp hbr hst]
      simp [sshPost, sshTail, sshMain, ha, hclean, hnc, hmsg, hec, doneOutcome]

/-- C3 witness: successful empty-commit runs at a concrete commit-less
machine, in both modes, exhibiting the two trace layouts. -/
theorem c3_empty_repo_push_witness :
    (run_action envNoCommits reqPushL).steps =
      [headStepL envNoCommits "git" "/repo", brStepL envNoCommits "git" "/repo",
       stStepL envNoCommits "git" "/repo", fetchStepL envNoCommits "git" "/repo",
       checkoutStepL envNoCommits "git" "/repo" "main",
       emptyCommitStepL envNoCommits "git" "/repo" "wip",
       pushStepL envNoCommits "git" "/repo" "main"] ∧
    (run_action envNoCommits reqPushS).steps =
      [brStepS envNoCommits "ssh" reqPushS.ssh "/srv/repo",
       headStepS envNoCommits "ssh" reqPushS.ssh "/srv/repo",
       stStepS envNoCommits "ssh" reqPushS.ssh "/srv/repo",
       emptyCommitStepS envNoCommits "ssh" reqPushS.ssh "/srv/repo" "wip",
       fetchStepS envNoCommits "ssh" reqPushS.ssh "/srv/repo",
       checkoutStepS envNoCommits "ssh" reqPushS.ssh "/srv/repo" "main",
       pushStepS envNoCommits "ssh" reqPushS.ssh "/srv/repo" "main"] := by
  have h1 := (((c3_empty_repo_push envNoCommits reqPushL "git" "ssh").1
    (by decide) (by decide) (by decide) (by decide) (by decide) (by decide)
    (by decide) (by decide) (by decide) (by decide) (by decide)).2).2
    (by decide) (by decide)
  have h2 := (((c3_empty_repo_push envNoCommits reqPushS "git" "ssh").2
    (by decide) (by decide) (by decide) (by decide) (by decide) (by decide)
    (by decide) (by decide) (by decide) (by decide)).2).2
    (by decide) (by decide)
  exact ⟨h1, h2⟩

/-! ## C9 -/

/-- The escape body is the character-wise replacement of each quote by the
4-character close-escape-reopen sequence. -/
lemma escBody_eq_flatMap (l : List Char) :
    escBody l = l.flatMap (fun c =>
      if c = squote then [squote, bslash, squote, squote] else [c]) := by
  induction l with
  | nil => simp [escBody]
  | cons c cs ih =>
    by_cases h : c = squote
    · simp [escBody, h, ih]
    · simp [escBody, h, ih]

/-- Unfolding equation of `posixWordAux` at a cons cell in quoted state. -/
lemma posixWordAux_cons_true (c : Char) (cs : List Char) :
    posixWordAux (c :: cs) true =
      if c = squote then posixWordAux cs false
      else (posixWordAux cs true).map (fun r => c :: r) := rfl

/-- Unfolding equation of `posixWordAux` at a cons cell in unquoted state. -/
lemma posixWordAux_cons_false (c : Char) (cs : List Char) :
    posixWordAux (c :: cs) false =
      if c = squote then posixWordAux cs true
      else if c = bslash then
        match cs with
        | [] => none
        | d :: cs2 => (posixWordAux cs2 false).map (fun r => d :: r)
      else if isWordBreak c then none
      else (posixWordAux cs false).map (fun r => c :: r) := by
  cases cs <;> rfl

/-- Scanning the escape body inside single quotes, followed by the closing
quote and arbitrary remaining input, recovers the original characters. -/
lemma posixWordAux_escBody (s t : List Char) :
    posixWordAux (escBody s ++ squote :: t) true =
      (posixWordAux t false).map (fun r => s ++ r) := by
  induction s with
  | nil =>
    simp only [escBody, List.nil_append, posixWordAux_cons_true, if_pos rfl]
    cases posixWordAux t false <;> simp
  | cons c cs ih =>
    by_cases h : c = squote
    · subst h
      simp +decide [escBody, posixWordAux_cons_true, posixWordAux_cons_false,
        ih, Option.map_map, Function.comp_def]
    · simp [escBody, posixWordAux_cons_true, h, ih, Option.map_map, Function.comp_def]

/-- C9: the remote-shell escaping wraps its argument in single quotes and
replaces each embedded single quote by the 4-character sequence close
quote, escaped quote, reopen quote; interpreting the escaped form under
POSIX quoting rules yields back exactly the original string as one single
argument. -/
theorem c9_escape_round_trip (s : String) :
    (shell_escape_posix_single s).data =
      squote :: ((s.data.flatMap fun c =>
        if c = squote then [squote, bslash, squote, squote] else [c]) ++ [squote]) ∧
    posixSingleWord (shell_escape_posix_single s) = some s := by
  constructor
  · simp [shell_escape_posix_single, escBody_eq_flatMap]
  · have h := posixWordAux_escBody s.data []
    simp only [posixSingleWord, shell_escape_posix_single]
    show (posixWordAux (squote :: (escBody s.data ++ [squote])) false).map String.mk = some s
    rw [posixWordAux_cons_false, if_pos rfl]
    have heq : (escBody s.data ++ [squote]) = escBody s.data ++ squote :: ([] : List Char) := rfl
    rw [heq, h]
    simp [posixWordAux]

/-! ## C10 -/

/-- The informational error attached when the repository is already
initialized. -/
def infoAlreadyError : ActionError :=
  { code := "GIT-0403", severity := "INFO",
    message := ".git already exists (already initialized)", detail := none }

/-- If a post-directory initializer outcome is successful yet carries an
error, it came from the already-initialized branch: the marker was
present, the error is the INFO one and only the skip step was appended. -/
lemma initAfterDir_ok_with_error (env : Env) (g lp : String)
    (ru db : Option String) (steps : List StepResult)
    (ho : (initAfterDir env g lp ru db steps).ok = true)
    (herr : (initAfterDir env g lp ru db steps).error ≠ none) :
    env.hasDotGit lp = true ∧
    (initAfterDir env g lp ru db steps).error = some infoAlreadyError ∧
    (initAfterDir env g lp ru db steps).steps = steps ++ [skipStep lp] := by
  revert ho herr
  simp only [initAfterDir]
  split
  · intro _ _
    refine ⟨by assumption, ?_, ?_⟩ <;> simp [initOutcome, infoAlreadyError]
  · intro ho herr
    exfalso
    simp only [initOutcome] at ho herr
    rw [ho] at herr
    simp at herr

/-- C10: for every initializer call on a path whose directory already
contains the git metadata marker, the outcome is successful with the INFO
already-initialized error and exactly one synthetic skip step; and this is
the only case of a successful outcome carrying an attached error: any
successful initializer outcome with an error is exactly that one (assuming
the marker can only be present in an existing directory), and a successful
orchestrator outcome never carries an error at all. -/
theorem c10_init_already_initialized (env : Env) (gp : Option String) (lp : String)
    (ru db : Option String) (g : String)
    (henv : env.hasDotGit (strTrim lp) = true → env.pathExists (strTrim lp) = true) :
    (env.resolveGit gp = some g →
     (strTrim lp).isEmpty = false →
     env.hasDotGit (strTrim lp) = true →
     init_local_repo env gp lp ru db =
       initOutcome true [skipStep (strTrim lp)] (some infoAlreadyError)) ∧
    ((init_local_repo env gp lp ru db).ok = true →
     (init_local_repo env gp lp ru db).error ≠ none →
     (init_local_repo env gp lp ru db).error = some infoAlreadyError ∧
     (init_local_repo env gp lp ru db).steps = [skipStep (strTrim lp)]) ∧
    (∀ req : RunActionRequest,
     (run_action env req).ok = true → (run_action env req).error = none) := by
  refine ⟨?_, ?_, fun req => (soundAgg_run_action env req).2.2⟩
  · intro hg hlp hdg
    have hex : env.pathExists (strTrim lp) = true := henv hdg
    simp [init_local_repo, hg, hlp, hex, initAfterDir, hdg, infoAlreadyError]
  · intro ho herr
    rcases hM : env.resolveGit gp with _ | g'
    · simp only [init_local_repo, hM] at ho
      simp [initOutcome] at ho
    · simp only [init_local_repo, hM] at ho herr ⊢
      by_cases hlp : (strTrim lp).isEmpty = true
      · simp only [if_pos hlp] at ho
        simp [initOutcome] at ho
      · simp only [if_neg hlp] at ho herr ⊢
        by_cases hpe : env.pathExists (strTrim lp) = false
        · simp only [if_pos hpe] at ho herr ⊢
          rcases hC : env.createDirErr (strTrim lp) with _ | e
          · simp only [hC] at ho herr ⊢
            have hd := initAfterDir_ok_with_error env g' (strTrim lp) ru db
              [mkdirStep (strTrim lp)] ho herr
            have h2 := henv hd.1
            rw [hpe] at h2
            exact absurd h2 (by simp)
          · simp only [hC] at ho
            simp [initOutcome] at ho
        · simp only [if_neg hpe] at ho herr ⊢
          have hd := initAfterDir_ok_with_error env g' (strTrim lp) ru db [] ho herr
          exact ⟨hd.2.1, by simpa using hd.2.2⟩

/-- C10 witness: a concrete already-initialized path, plus the
only-case clause at the same input. -/
theorem c10_init_already_initialized_witness :
    init_local_repo envOk none "/repo" none none =
      initOutcome true [skipStep "/repo"] (some infoAlreadyError) ∧
    (init_local_repo envOk none "/repo" none none).error = some infoAlreadyError ∧
    (init_local_repo envOk none "/repo" none none).steps = [skipStep "/repo"] ∧
    (run_action envOk reqBase).error = none := by
  have h := c10_init_already_initialized envOk none "/repo" none none "git"
    (fun _ => by decide)
  refine ⟨h.1 (by decide) (by decide) (by decide), ?_, ?_, h.2.2 reqBase (by decide)⟩
  · exact (h.2.1 (by decide) (by decide)).1
  · exact (h.2.1 (by decide) (by decide)).2
